import Mathlib

/-!
Shallow embedding of the traefik-quota-plugin middleware core:
the token-bucket rate limiter (rate_limiter.go), the quota manager
(quota_manager.go), identifier extraction and the request pipeline
(quota.go), over an abstract backing store (redis_client.go key/value
semantics).

Modelling conventions:
* time instants and durations are integer nanoseconds (Go `time.Time`
  via `UnixNano` and `time.Duration`);
* Go `float64` token arithmetic is modelled with `ℚ` (the serialization
  round-trips `%v`/`ParseFloat` exactly, and the claimed properties are
  about the exact arithmetic structure; configurations with a positive
  parsed period are assumed where Go float division by zero would
  produce Inf/NaN);
* a store cell holds either a decimal-float value or an integer value,
  mirroring what the two subsystems write; a failed `GET` (key absent
  or network error) is `none`;
* store writes (SET/SETEX/EXPIRE) always succeed in the model; TTL
  bookkeeping is not modelled (no claim depends on expiry);
* wall-clock calendar computations (`GetQuotaPeriodKey`,
  `getNextResetTime`) enter only as an opaque period label argument and
  reset fields are omitted from the quota info record.
-/

namespace TraefikQuota

/-- A value stored in the backing store: the rate limiter writes
decimal floats (token counts), the quota manager writes integers. -/
inductive Cell where
  | rat (x : ℚ)
  | int (n : Int)
deriving DecidableEq

/-- The backing store as a partial map from keys to cells; `none` is a
failed read (absent key or store error). -/
abbrev Store : Type := String → Option Cell

/-- Write one cell (Redis SET; writes always succeed in the model). -/
def Store.set (s : Store) (k : String) (c : Cell) : Store :=
  fun k' => if k' = k then some c else s k'

/-- Read a cell as a float (strconv.ParseFloat also accepts integer
text, hence the `.int` case). -/
def readRat : Option Cell → Option ℚ
  | some (.rat x) => some x
  | some (.int n) => some (n : ℚ)
  | none => none

/-- Read a cell as an integer (strconv.ParseInt fails on float text). -/
def readInt : Option Cell → Option Int
  | some (.int n) => some n
  | _ => none

/-- RateLimitConfig (config.go) with `period` holding the result of
ParseRateLimitPeriod: `none` when the Period string does not parse,
otherwise the duration in nanoseconds (the empty string defaults to one
minute inside the parse, so it is a `some`). -/
structure RateLimitConfig where
  enabled : Bool
  rate : Int
  burst : Int
  period : Option Int
  responseReachedLimitCode : Int
  responseReachedLimitBody : String
deriving DecidableEq

/-- QuotaSettings (config.go); `period` is the Daily/Weekly/Monthly
label string. -/
structure QuotaSettings where
  enabled : Bool
  limit : Int
  period : String
  responseReachedLimitCode : Int
  responseReachedLimitBody : String
deriving DecidableEq

/-- IdentifierConfig (config.go). -/
structure IdentifierConfig where
  type : String
  name : String
  value : String
  rateLimit : RateLimitConfig
  quota : QuotaSettings
deriving DecidableEq

/-- TokenBucket (rate_limiter.go): tokens are fractional, lastRefill is
nanoseconds since epoch, refillPeriod is a duration in nanoseconds. -/
structure TokenBucket where
  tokens : ℚ
  lastRefill : Int
  rate : Int
  burst : Int
  refillPeriod : Int
deriving DecidableEq

/-- Duration.Seconds: nanoseconds to (exact) seconds. -/
def secondsQ (d : Int) : ℚ := (d : ℚ) / 1000000000

/-- GetRateLimitKey (redis_client.go). -/
def getRateLimitKey (identifier : String) : String :=
  "ratelimit:" ++ identifier

/-- GetQuotaKey (redis_client.go). -/
def getQuotaKey (identifier periodLabel : String) : String :=
  "quota:" ++ identifier ++ ":" ++ periodLabel

/-- createNewBucket (rate_limiter.go): a fresh full bucket; errors iff
the configured period does not parse. -/
def createNewBucket (cfg : RateLimitConfig) (now : Int) :
    Except String TokenBucket :=
  match cfg.period with
  | none => .error "invalid period"
  | some p => .ok ⟨(cfg.burst : ℚ), now, cfg.rate, cfg.burst, p⟩

/-- getBucket (rate_limiter.go): read the two cells; any read failure
falls back to a fresh bucket; a period parse failure on the success
path is a real error. -/
def getBucket (cfg : RateLimitConfig) (store : Store) (key : String)
    (now : Int) : Except String TokenBucket :=
  match readRat (store (key ++ ":tokens")) with
  | none => createNewBucket cfg now
  | some tk =>
    match readInt (store (key ++ ":last_refill")) with
    | none => createNewBucket cfg now
    | some lr =>
      match cfg.period with
      | none => .error "invalid period"
      | some p => .ok ⟨tk, lr, cfg.rate, cfg.burst, p⟩

/-- refillBucket (rate_limiter.go): lazy refill to `now`, capped at
burst, advancing lastRefill. -/
def refillBucket (b : TokenBucket) (now : Int) : TokenBucket :=
  let elapsed := now - b.lastRefill
  let tokensToAdd := (b.rate : ℚ) * secondsQ elapsed / secondsQ b.refillPeriod
  { b with tokens := min (b.tokens + tokensToAdd) ((b.burst : ℚ)),
           lastRefill := now }

/-- saveBucket (rate_limiter.go): persist the two cells. -/
def saveBucket (store : Store) (key : String) (b : TokenBucket) : Store :=
  (store.set (key ++ ":tokens") (.rat b.tokens)).set
    (key ++ ":last_refill") (.int b.lastRefill)

/-- Allow (rate_limiter.go): fetch or create, refill, consume one token
when available and persist, otherwise deny without writing. -/
def Allow (cfg : RateLimitConfig) (store : Store) (identifier : String)
    (now : Int) : Except String (Bool × Store) := do
  let key := getRateLimitKey identifier
  let b ← getBucket cfg store key now
  let b := refillBucket b now
  if 1 ≤ b.tokens then
    let b := { b with tokens := b.tokens - 1 }
    .ok (true, saveBucket store key b)
  else
    .ok (false, store)

/-- AllowN (rate_limiter.go): `n ≤ 0` is allowed without touching the
store; otherwise like Allow with `n` tokens. -/
def AllowN (cfg : RateLimitConfig) (store : Store) (identifier : String)
    (now : Int) (n : Int) : Except String (Bool × Store) :=
  if n ≤ 0 then .ok (true, store)
  else do
    let key := getRateLimitKey identifier
    let b ← getBucket cfg store key now
    let b := refillBucket b now
    if (n : ℚ) ≤ b.tokens then
      let b := { b with tokens := b.tokens - (n : ℚ) }
      .ok (true, saveBucket store key b)
    else
      .ok (false, store)

/-- RateLimitInfo (rate_limiter.go); reset fields in nanoseconds. -/
structure RateLimitInfo where
  limit : Int
  burst : Int
  available : Int
  resetTime : Int
  retryAfter : Int
deriving DecidableEq

/-- Go conversion int(float64): truncation toward zero. -/
def truncQ (x : ℚ) : Int := if 0 ≤ x then ⌊x⌋ else ⌈x⌉

/-- GetLimitInfo (rate_limiter.go): read, refill (no write), report. -/
def GetLimitInfo (cfg : RateLimitConfig) (store : Store)
    (identifier : String) (now : Int) : Except String RateLimitInfo := do
  let key := getRateLimitKey identifier
  let b ← getBucket cfg store key now
  let b := refillBucket b now
  let timeUntilReset : Int :=
    if b.tokens < (b.burst : ℚ) then
      truncQ (secondsQ b.refillPeriod / (b.rate : ℚ) * 1000000000)
    else 0
  .ok ⟨b.rate, b.burst, truncQ b.tokens, now + timeUntilReset, timeUntilReset⟩

/-- QuotaInfo (quota_manager.go); the wall-clock ResetTime/ResetIn
fields are outside the model (calendar arithmetic on `time.Now`). -/
structure QuotaInfo where
  limit : Int
  used : Int
  remaining : Int
  period : String
deriving DecidableEq

/-- GetQuotaInfo (quota_manager.go): an unreadable or unparseable
counter counts as zero; remaining is clamped at zero. This function
never returns an error. -/
def getQuotaInfo (cfg : QuotaSettings) (store : Store)
    (identifier periodLabel : String) : QuotaInfo :=
  if cfg.enabled = false then
    ⟨0, 0, 0, "Disabled"⟩
  else
    let key := getQuotaKey identifier periodLabel
    let used := (readInt (store key)).getD 0
    let remaining := max (cfg.limit - used) 0
    ⟨cfg.limit, used, remaining, cfg.period⟩

/-- CheckQuota (quota_manager.go): read-only gate, allowed iff the
usage has not reached the limit. -/
def CheckQuota (cfg : QuotaSettings) (store : Store)
    (identifier periodLabel : String) : Bool × Option QuotaInfo :=
  if cfg.enabled = false then (true, none)
  else
    let info := getQuotaInfo cfg store identifier periodLabel
    if info.limit ≤ info.used then (false, some info)
    else (true, some info)

/-- Redis INCRBY: absent key starts from zero; a non-integer value is a
store error. -/
def incrBy (store : Store) (key : String) (amount : Int) :
    Except String (Int × Store) :=
  match store key with
  | some (.rat _) => .error "value is not an integer"
  | some (.int n) => .ok (n + amount, store.set key (.int (n + amount)))
  | none => .ok (amount, store.set key (.int amount))

/-- ConsumeQuota (quota_manager.go): coerce non-positive amounts to 1,
atomically increment the period counter, and report the updated info.
The expiration set on a freshly created key is TTL bookkeeping outside
the store model. -/
def ConsumeQuota (cfg : QuotaSettings) (store : Store)
    (identifier periodLabel : String) (amount : Int) :
    Except String (Option QuotaInfo × Store) :=
  if cfg.enabled = false then .ok (none, store)
  else
    let amount := if amount ≤ 0 then 1 else amount
    let key := getQuotaKey identifier periodLabel
    match incrBy store key amount with
    | .error e => .error e
    | .ok (_, store') =>
      let info := getQuotaInfo cfg store' identifier periodLabel
      .ok (some info, store')

/-- An HTTP request as the middleware reads it: header, query and
cookie lookups (`none` = not present; header names are taken already in
Go's canonical form) and the connection's remote address. -/
structure Request where
  headers : String → Option String
  query : String → Option String
  cookies : String → Option String
  remoteAddr : String

/-- Go req.Header.Get: the empty string when the header is absent. -/
def headerGet (req : Request) (name : String) : String :=
  (req.headers name).getD ""

/-- Drop everything from the last colon on (the strings.LastIndex port
strip in the IP case); the string is unchanged when it has no colon. -/
def stripPort (s : String) : String :=
  match s.toList.reverse.dropWhile (fun c => c ≠ ':') with
  | [] => s
  | _ :: rest => String.mk rest.reverse

/-- First comma-separated element, trimmed (the X-Forwarded-For
handling). -/
def firstForwarded (s : String) : String :=
  ((s.splitOn ",").headD s).trim

/-- extractIdentifier (quota.go): type-directed extraction; the empty
string means "no match". -/
def extractIdentifier (req : Request) (cfg : IdentifierConfig) : String :=
  if cfg.type = "Header" then
    let value := headerGet req cfg.name
    if value ≠ "" then
      if value = cfg.value then value else ""
    else if cfg.value = "sk-unknown" ∨ cfg.value = "anonymous" ∨
            cfg.value = "guest" then
      cfg.value
    else ""
  else if cfg.type = "IP" then
    let ip := req.remoteAddr
    let forwarded := headerGet req "X-Forwarded-For"
    let ip := if forwarded ≠ "" then firstForwarded forwarded else ip
    let realIP := headerGet req "X-Real-IP"
    let ip := if realIP ≠ "" then realIP else ip
    stripPort ip
  else if cfg.type = "Query" then
    let value := (req.query cfg.name).getD ""
    if value ≠ "" then value else cfg.value
  else if cfg.type = "Cookie" then
    match req.cookies cfg.name with
    | some v => v
    | none => cfg.value
  else cfg.value

/-- The first-match scan of ServeHTTP over the managers in a given
iteration order (Go iterates the `q.managers` map, whose order is
unspecified; the order is therefore a parameter here), returning the
matched rule and its identifier. checkIdentifier never returns a
non-nil error, so the error-continue branch cannot fire. -/
def resolveFirst (rules : List IdentifierConfig) (req : Request) :
    Option (IdentifierConfig × String) :=
  match rules with
  | [] => none
  | r :: rest =>
    let idf := extractIdentifier req r
    if idf = "" then resolveFirst rest req else some (r, idf)

/-- QuotaResponse (quota.go). -/
structure QuotaResponse where
  allowed : Bool
  rateLimit : Option RateLimitInfo
  quota : Option QuotaInfo
  identifier : String
  identifierType : String
  reason : String
  responseCode : Int
  responseBody : String
deriving DecidableEq

/-- Observable side steps of ServeHTTP, in the order performed. -/
inductive Event where
  | limiterConsume
  | quotaCheckGate
  | writeHeaders
  | consumeQuota
  | downstream
  | denyWrite
deriving DecidableEq

/-- A zero RateLimitInfo (the Go zero value used on info errors). -/
def zeroRateLimitInfo : RateLimitInfo := ⟨0, 0, 0, 0, 0⟩

/-- checkIdentifier (quota.go): rate-limit gate (fail open on limiter
error, no token consumed then), then quota gate; produces the response,
the updated store and the consume/check events. In New the rateLimiter
is created iff rate limiting is enabled, so the Go guard
`Enabled && rateLimiter != nil` collapses to the enabled flag. -/
def checkIdentifier (cfg : IdentifierConfig) (store : Store)
    (identifier : String) (now : Int) (periodLabel : String) :
    QuotaResponse × Store × List Event :=
  let rateStep :=
    if cfg.rateLimit.enabled then
      match Allow cfg.rateLimit store identifier now with
      | .error _ => (true, store, ([] : List Event))
      | .ok (a, s') => (a, s', if a then [Event.limiterConsume] else [])
    else (true, store, [])
  let rateLimitAllowed := rateStep.1
  let store₁ := rateStep.2.1
  let evs₁ := rateStep.2.2
  let rlInfo : Option RateLimitInfo :=
    if cfg.rateLimit.enabled then
      match GetLimitInfo cfg.rateLimit store₁ identifier now with
      | .error _ => some zeroRateLimitInfo
      | .ok i => some i
    else none
  if cfg.rateLimit.enabled ∧ rateLimitAllowed = false then
    (⟨false, rlInfo, none, identifier, cfg.type, "Rate limit exceeded",
      cfg.rateLimit.responseReachedLimitCode,
      cfg.rateLimit.responseReachedLimitBody⟩, store₁, evs₁)
  else
    let quotaStep :=
      if cfg.quota.enabled then
        let c := CheckQuota cfg.quota store₁ identifier periodLabel
        (c.1, c.2, [Event.quotaCheckGate])
      else (true, none, [])
    let quotaAllowed := quotaStep.1
    let quotaInfo := quotaStep.2.1
    let evs₂ := evs₁ ++ quotaStep.2.2
    if quotaAllowed = false then
      (⟨false, rlInfo, quotaInfo, identifier, cfg.type, "Quota exceeded",
        cfg.quota.responseReachedLimitCode,
        cfg.quota.responseReachedLimitBody⟩, store₁, evs₂)
    else
      (⟨true, rlInfo, quotaInfo, identifier, cfg.type, "Request allowed",
        0, ""⟩, store₁, evs₂)

/-- Outcome of one ServeHTTP run for a matched rule: the response
record, the final store, the observable event trace, and the HTTP
status written on a denial (`none` when the request was passed to the
downstream handler). -/
structure ServeResult where
  response : QuotaResponse
  store : Store
  events : List Event
  status : Option Int

/-- ServeHTTP after a rule has matched (quota.go lines 172-217): write
the quota headers; on a denial compute the status (configured code when
non-zero, else 403 for a quota denial and 429 otherwise) and write the
deny body; on a pass consume one quota unit when quota is enabled and
only then invoke the downstream handler. -/
def serveMatched (cfg : IdentifierConfig) (store : Store)
    (identifier : String) (now : Int) (periodLabel : String) :
    ServeResult :=
  let c := checkIdentifier cfg store identifier now periodLabel
  let resp := c.1
  let store₁ := c.2.1
  let evs := c.2.2 ++ [Event.writeHeaders]
  if resp.allowed = false then
    let statusCode :=
      if resp.responseCode = 0 then
        if resp.reason = "Quota exceeded" then 403 else 429
      else resp.responseCode
    ⟨resp, store₁, evs ++ [Event.denyWrite], some statusCode⟩
  else
    let consumeStep :=
      if cfg.quota.enabled then
        match ConsumeQuota cfg.quota store₁ identifier periodLabel 1 with
        | .error _ => (store₁, [Event.consumeQuota])
        | .ok (_, s') => (s', [Event.consumeQuota])
      else (store₁, [])
    ⟨resp, consumeStep.1, evs ++ consumeStep.2 ++ [Event.downstream], none⟩

/-! Helper lemmas shared by several developments below. -/

/-- Applying an updated store to a key. -/
theorem Store.set_apply (s : Store) (k : String) (c : Cell) (k' : String) :
    Store.set s k c k' = if k' = k then some c else s k' := rfl

/-- The two cells of one bucket live under distinct keys. -/
theorem tokens_key_ne_last_refill_key (key : String) :
    key ++ ":tokens" ≠ key ++ ":last_refill" := by
  intro h
  have hl := congrArg String.length h
  have h7 : ":tokens".length = 7 := rfl
  have h12 : ":last_refill".length = 12 := rfl
  simp only [String.length_append, h7, h12] at hl
  omega

/-- A key distinct from the base key with either bucket suffix keeps its
value across saveBucket. -/
theorem saveBucket_frame (store : Store) (key : String) (b : TokenBucket)
    (k : String) (h1 : k ≠ key ++ ":tokens") (h2 : k ≠ key ++ ":last_refill") :
    saveBucket store key b k = store k := by
  simp [saveBucket, Store.set_apply, h1, h2]

/-- With a parseable period, GetLimitInfo always succeeds. -/
theorem getLimitInfo_isOk (cfg : RateLimitConfig) (store : Store) (identifier : String)
    (now p : Int) (hp : cfg.period = some p) :
    ∃ i, GetLimitInfo cfg store identifier now = .ok i := by
  unfold GetLimitInfo getBucket createNewBucket
  cases htk : readRat (store (getRateLimitKey identifier ++ ":tokens")) with
  | none => simp [hp, htk, bind, Except.bind]
  | some tk =>
    cases hlr : readInt (store (getRateLimitKey identifier ++ ":last_refill")) with
    | none => simp [hp, htk, hlr, bind, Except.bind]
    | some lr => simp [hp, htk, hlr, bind, Except.bind]

/-- With a parseable period, getBucket always succeeds. -/
theorem getBucket_isOk (cfg : RateLimitConfig) (store : Store) (key : String)
    (now p : Int) (hp : cfg.period = some p) :
    ∃ b, getBucket cfg store key now = .ok b := by
  unfold getBucket createNewBucket
  cases htk : readRat (store (key ++ ":tokens")) with
  | none => simp [hp, htk]
  | some tk =>
    cases hlr : readInt (store (key ++ ":last_refill")) with
    | none => simp [hp, htk, hlr]
    | some lr => simp [hp, htk, hlr]

/-- With a parseable period, Allow always returns a decision. -/
theorem allow_shape (cfg : RateLimitConfig) (store : Store) (identifier : String)
    (now p : Int) (hp : cfg.period = some p) :
    ∃ a s', Allow cfg store identifier now = .ok (a, s') := by
  obtain ⟨b, hb⟩ := getBucket_isOk cfg store (getRateLimitKey identifier) now p hp
  simp only [Allow, bind, Except.bind, hb]
  split
  · exact ⟨true, _, rfl⟩
  · exact ⟨false, store, rfl⟩

/-- The response record serveMatched carries is exactly the one
checkIdentifier produced. -/
theorem serve_response (cfg : IdentifierConfig) (store : Store)
    (identifier : String) (now : Int) (periodLabel : String) :
    (serveMatched cfg store identifier now periodLabel).response
      = (checkIdentifier cfg store identifier now periodLabel).1 := by
  simp only [serveMatched]
  split <;> rfl

/-- On a denial, serveMatched writes the status computed from the
response record by the quota.go fallback rule. -/
theorem serve_status_of_denied (cfg : IdentifierConfig) (store : Store)
    (identifier : String) (now : Int) (periodLabel : String)
    (hd : (checkIdentifier cfg store identifier now periodLabel).1.allowed = false) :
    (serveMatched cfg store identifier now periodLabel).status
      = some (if (checkIdentifier cfg store identifier now periodLabel).1.responseCode = 0
              then (if (checkIdentifier cfg store identifier now periodLabel).1.reason
                       = "Quota exceeded" then 403 else 429)
              else (checkIdentifier cfg store identifier now periodLabel).1.responseCode) := by
  simp only [serveMatched]
  simp [hd]

/-- Every checkIdentifier response takes one of the three shapes of
quota.go: the pass response, the rate-limit denial carrying the rate
deny code, or the quota denial carrying the quota deny code. -/
theorem checkIdentifier_shape (cfg : IdentifierConfig) (store : Store)
    (identifier : String) (now : Int) (periodLabel : String) :
    ((checkIdentifier cfg store identifier now periodLabel).1.allowed = true ∧
      (checkIdentifier cfg store identifier now periodLabel).1.reason = "Request allowed" ∧
      (checkIdentifier cfg store identifier now periodLabel).1.responseCode = 0) ∨
    ((checkIdentifier cfg store identifier now periodLabel).1.allowed = false ∧
      (checkIdentifier cfg store identifier now periodLabel).1.reason = "Rate limit exceeded" ∧
      (checkIdentifier cfg store identifier now periodLabel).1.responseCode
        = cfg.rateLimit.responseReachedLimitCode) ∨
    ((checkIdentifier cfg store identifier now periodLabel).1.allowed = false ∧
      (checkIdentifier cfg store identifier now periodLabel).1.reason = "Quota exceeded" ∧
      (checkIdentifier cfg store identifier now periodLabel).1.responseCode
        = cfg.quota.responseReachedLimitCode) := by
  simp only [checkIdentifier]
  repeat' split
  all_goals simp

/-! Concrete fixtures used by the counterexamples and witnesses. -/

/-- An empty backing store (every read fails). -/
def store0 : Store := fun _ => none

/-- A request with no headers, queries or cookies. -/
def req0 : Request := ⟨fun _ => none, fun _ => none, fun _ => none, "10.0.0.1:1234"⟩

/-- Header rule with the sentinel expected value "anonymous". -/
def rA : IdentifierConfig :=
  ⟨"Header", "X-User-ID", "anonymous", ⟨false, 0, 0, none, 0, ""⟩,
    ⟨true, 10, "Daily", 0, ""⟩⟩

/-- Header rule with the sentinel expected value "guest". -/
def rB : IdentifierConfig :=
  ⟨"Header", "X-Session", "guest", ⟨false, 0, 0, none, 0, ""⟩,
    ⟨true, 10, "Daily", 0, ""⟩⟩

/-- A request carrying the X-User-ID header with an empty value. -/
def reqEmptyHeader : Request :=
  ⟨fun n => if n = "X-User-ID" then some "" else none,
    fun _ => none, fun _ => none, "1.2.3.4:80"⟩

/-- A request carrying X-API-Key: sk-a. -/
def reqSkA : Request :=
  ⟨fun n => if n = "X-API-Key" then some "sk-a" else none,
    fun _ => none, fun _ => none, "1.2.3.4:80"⟩

/-- C1: ServeHTTP scans `q.managers`, a Go map whose iteration order is
unspecified, so the first-match scan is order-dependent: on a request
with no headers, the two sentinel Header rules rA and rB both match,
and the two iteration orders of the same two-rule configuration yield
different (rule, identifier) results. This refutes "evaluates the
identifier rules in configured order ... repeated evaluations of the
same request against the same configuration always yield the same
(rule, identifier) result". -/
theorem resolveFirst_order_dependent :
    resolveFirst [rA, rB] req0 = some (rA, "anonymous") ∧
    resolveFirst [rB, rA] req0 = some (rB, "guest") ∧
    (some (rA, "anonymous") ≠ some (rB, "guest")) := by
  refine ⟨?_, ?_, by decide⟩ <;> decide

/-- C5 (counterexample): a Header rule with sentinel expected value
"anonymous" matches a request in which the header is PRESENT with the
empty value — the claim says a present header matches iff its value
equals the expected value, which would make this a non-match. -/
theorem header_empty_value_cex :
    reqEmptyHeader.headers "X-User-ID" = some "" ∧
    ("" : String) ≠ "anonymous" ∧
    extractIdentifier reqEmptyHeader rA = "anonymous" := by
  refine ⟨by decide, by decide, by decide⟩

/-- C5 (amended): Header extraction treats a present-but-empty header
value like an absent header. For a nonempty header value the rule
matches iff the value equals expected_value (identifier = header
value); when the header is absent or empty, the rule matches with
identifier = expected_value iff expected_value is one of the sentinels
"sk-unknown", "anonymous", "guest". -/
theorem header_extract_amended (cfg : IdentifierConfig) (req : Request) (v : String)
    (ht : cfg.type = "Header") :
    (req.headers cfg.name = some v → v ≠ "" →
      ((v = cfg.value → extractIdentifier req cfg = v) ∧
       (v ≠ cfg.value → extractIdentifier req cfg = ""))) ∧
    ((req.headers cfg.name = none ∨ req.headers cfg.name = some "") →
      (((cfg.value = "sk-unknown" ∨ cfg.value = "anonymous" ∨ cfg.value = "guest") →
         extractIdentifier req cfg = cfg.value) ∧
       (¬(cfg.value = "sk-unknown" ∨ cfg.value = "anonymous" ∨ cfg.value = "guest") →
         extractIdentifier req cfg = ""))) := by
  have hh : extractIdentifier req cfg =
      (if headerGet req cfg.name ≠ "" then
        (if headerGet req cfg.name = cfg.value then headerGet req cfg.name else "")
      else if cfg.value = "sk-unknown" ∨ cfg.value = "anonymous" ∨ cfg.value = "guest"
      then cfg.value else "") := by
    simp [extractIdentifier, ht]
  constructor
  · intro hsome hne
    have hval : headerGet req cfg.name = v := by simp [headerGet, hsome]
    constructor
    · intro hv
      rw [hh, hval, if_pos hne, if_pos hv]
    · intro hv
      rw [hh, hval, if_pos hne, if_neg hv]
  · intro habs
    have hget : headerGet req cfg.name = "" := by
      rcases habs with h | h <;> simp [headerGet, h]
    constructor
    · intro hs
      rw [hh, hget, if_neg (by simp), if_pos hs]
    · intro hs
      rw [hh, hget, if_neg (by simp), if_neg hs]

/-- C5 (witness): the amended statement at a concrete exact match:
header X-API-Key present with value sk-a equal to the expected value. -/
theorem header_extract_amended_witness :
    extractIdentifier reqSkA
      ⟨"Header", "X-API-Key", "sk-a", ⟨false, 0, 0, none, 0, ""⟩,
        ⟨true, 10, "Daily", 0, ""⟩⟩ = "sk-a" :=
  ((header_extract_amended _ reqSkA "sk-a" rfl).1 (by decide) (by decide)).1 rfl

/-- C8: the lazy refill is idempotent at a fixed instant: refilling a
just-refilled bucket at the same time adds zero tokens and leaves the
bucket (tokens and last_refill included) unchanged. -/
theorem refill_idempotent (b : TokenBucket) (t : Int) :
    refillBucket (refillBucket b t) t = refillBucket b t := by
  simp [refillBucket, secondsQ, min_assoc]

/-- C4: bucket operations keep `0 ≤ tokens ≤ burst` for validated
parameters (rate ≥ 0, burst > 0, parsed period > 0) and a
non-decreasing clock: a freshly created bucket satisfies it, a refill
of a bucket with nonnegative tokens lands in [0, burst], and the
consume step (subtracting 1 when the refilled bucket has at least one
token) stays in [0, burst]. -/
theorem bucket_invariant :
    (∀ (cfg : RateLimitConfig) (now : Int) (b : TokenBucket),
      0 < cfg.burst → createNewBucket cfg now = .ok b →
      0 ≤ b.tokens ∧ b.tokens ≤ (b.burst : ℚ)) ∧
    (∀ (b : TokenBucket) (now : Int),
      0 ≤ b.tokens → 0 ≤ b.rate → 0 < b.burst → 0 < b.refillPeriod →
      b.lastRefill ≤ now →
      0 ≤ (refillBucket b now).tokens ∧
        (refillBucket b now).tokens ≤ ((refillBucket b now).burst : ℚ)) ∧
    (∀ (b : TokenBucket) (now : Int),
      0 ≤ b.tokens → 0 ≤ b.rate → 0 < b.burst → 0 < b.refillPeriod →
      b.lastRefill ≤ now → 1 ≤ (refillBucket b now).tokens →
      0 ≤ (refillBucket b now).tokens - 1 ∧
        (refillBucket b now).tokens - 1 ≤ ((refillBucket b now).burst : ℚ)) := by
  have hrefill : ∀ (b : TokenBucket) (now : Int),
      0 ≤ b.tokens → 0 ≤ b.rate → 0 < b.burst → 0 < b.refillPeriod →
      b.lastRefill ≤ now →
      0 ≤ (refillBucket b now).tokens ∧
        (refillBucket b now).tokens ≤ ((refillBucket b now).burst : ℚ) := by
    intro b now ht hr hb hp hle
    have htok : (refillBucket b now).tokens
        = min (b.tokens + (b.rate : ℚ) * secondsQ (now - b.lastRefill) /
            secondsQ b.refillPeriod) ((b.burst : ℚ)) := rfl
    have hburst : (refillBucket b now).burst = b.burst := rfl
    have hadd : 0 ≤ (b.rate : ℚ) * secondsQ (now - b.lastRefill) / secondsQ b.refillPeriod := by
      apply div_nonneg
      · apply mul_nonneg
        · exact_mod_cast hr
        · unfold secondsQ
          apply div_nonneg
          · exact_mod_cast sub_nonneg.mpr hle
          · norm_num
      · unfold secondsQ
        apply div_nonneg
        · exact_mod_cast hp.le
        · norm_num
    rw [htok, hburst]
    constructor
    · apply le_min (add_nonneg ht hadd)
      exact_mod_cast hb.le
    · exact min_le_right _ _
  refine ⟨?_, hrefill, ?_⟩
  · intro cfg now b hb hcreate
    unfold createNewBucket at hcreate
    cases hp : cfg.period with
    | none => rw [hp] at hcreate; exact absurd hcreate (by simp)
    | some p =>
      rw [hp] at hcreate
      obtain rfl : b = ⟨(cfg.burst : ℚ), now, cfg.rate, cfg.burst, p⟩ := by
        injection hcreate with h
        exact h.symm
      constructor
      · show (0 : ℚ) ≤ (cfg.burst : ℚ)
        exact_mod_cast hb.le
      · show (cfg.burst : ℚ) ≤ (cfg.burst : ℚ)
        exact le_refl _
  · intro b now ht hr hb hp hle hone
    obtain ⟨h0, h1⟩ := hrefill b now ht hr hb hp hle
    constructor
    · linarith
    · linarith

/-- C4 (witness): the invariant bounds at a concrete refill and
consume: a bucket holding 3 of burst 5, refilled two seconds later. -/
theorem bucket_invariant_witness :
    (0 ≤ (refillBucket ⟨3, 0, 5, 5, 1000000000⟩ 2000000000).tokens ∧
      (refillBucket ⟨3, 0, 5, 5, 1000000000⟩ 2000000000).tokens
        ≤ (((refillBucket ⟨3, 0, 5, 5, 1000000000⟩ 2000000000).burst : Int) : ℚ)) ∧
    (0 ≤ (refillBucket ⟨3, 0, 5, 5, 1000000000⟩ 2000000000).tokens - 1 ∧
      (refillBucket ⟨3, 0, 5, 5, 1000000000⟩ 2000000000).tokens - 1
        ≤ (((refillBucket ⟨3, 0, 5, 5, 1000000000⟩ 2000000000).burst : Int) : ℚ)) := by
  constructor
  · exact bucket_invariant.2.1 ⟨3, 0, 5, 5, 1000000000⟩ 2000000000
      (by norm_num) (by norm_num) (by norm_num) (by norm_num) (by norm_num)
  · refine bucket_invariant.2.2 ⟨3, 0, 5, 5, 1000000000⟩ 2000000000
      (by norm_num) (by norm_num) (by norm_num) (by norm_num) (by norm_num) ?_
    show (1 : ℚ) ≤ (refillBucket ⟨3, 0, 5, 5, 1000000000⟩ 2000000000).tokens
    have : (refillBucket ⟨3, 0, 5, 5, 1000000000⟩ 2000000000).tokens
        = min ((3 : ℚ) + (5 : ℚ) * secondsQ (2000000000 - 0) / secondsQ 1000000000)
            ((5 : ℚ)) := by
      norm_num [refillBucket]
    rw [this]
    norm_num [secondsQ]

/-- C3: Allow on a decision: when the fetched-or-created bucket,
lazily refilled to now, has at least one token, Allow subtracts exactly
one token and persists the bucket (the two cells of this identifier are
updated, every other key untouched) and returns Allowed; otherwise it
returns Denied with the whole store — the persisted tokens and
last_refill values included — unchanged. -/
theorem allow_consume_or_frame (cfg : RateLimitConfig) (store : Store)
    (identifier : String) (now : Int) (b : TokenBucket)
    (hb : getBucket cfg store (getRateLimitKey identifier) now = .ok b) :
    (1 ≤ (refillBucket b now).tokens →
      Allow cfg store identifier now
        = .ok (true, saveBucket store (getRateLimitKey identifier)
            { refillBucket b now with tokens := (refillBucket b now).tokens - 1 }) ∧
      saveBucket store (getRateLimitKey identifier)
          { refillBucket b now with tokens := (refillBucket b now).tokens - 1 }
          (getRateLimitKey identifier ++ ":tokens")
        = some (.rat ((refillBucket b now).tokens - 1)) ∧
      saveBucket store (getRateLimitKey identifier)
          { refillBucket b now with tokens := (refillBucket b now).tokens - 1 }
          (getRateLimitKey identifier ++ ":last_refill")
        = some (.int now) ∧
      (∀ k, k ≠ getRateLimitKey identifier ++ ":tokens" →
            k ≠ getRateLimitKey identifier ++ ":last_refill" →
            saveBucket store (getRateLimitKey identifier)
              { refillBucket b now with tokens := (refillBucket b now).tokens - 1 } k
              = store k)) ∧
    (¬ 1 ≤ (refillBucket b now).tokens →
      Allow cfg store identifier now = .ok (false, store)) := by
  constructor
  · intro h1
    refine ⟨?_, ?_, ?_, ?_⟩
    · simp [Allow, bind, Except.bind, hb, h1]
    · simp [saveBucket, Store.set_apply,
        tokens_key_ne_last_refill_key (getRateLimitKey identifier)]
    · have hlr : (refillBucket b now).lastRefill = now := rfl
      simp [saveBucket, Store.set_apply, hlr]
    · intro k hk1 hk2
      exact saveBucket_frame store (getRateLimitKey identifier) _ k hk1 hk2
  · intro h2
    simp [Allow, bind, Except.bind, hb, h2]

/-- C3 (witness): on an empty store a fresh full bucket (burst 5) has a
token, so Allow consumes one and persists. -/
theorem allow_consume_or_frame_witness :
    Allow ⟨true, 5, 5, some 1000000000, 0, ""⟩ store0 "w3" 0
      = .ok (true, saveBucket store0 (getRateLimitKey "w3")
          { refillBucket ⟨(5 : ℚ), 0, 5, 5, 1000000000⟩ 0 with
              tokens := (refillBucket ⟨(5 : ℚ), 0, 5, 5, 1000000000⟩ 0).tokens - 1 }) := by
  have hb : getBucket ⟨true, 5, 5, some 1000000000, 0, ""⟩ store0
      (getRateLimitKey "w3") 0 = .ok ⟨(5 : ℚ), 0, 5, 5, 1000000000⟩ := by
    norm_num [getBucket, store0, readRat, createNewBucket]
  have h1 : (1 : ℚ) ≤ (refillBucket ⟨(5 : ℚ), 0, 5, 5, 1000000000⟩ 0).tokens := by
    norm_num [refillBucket, secondsQ]
  exact (allow_consume_or_frame ⟨true, 5, 5, some 1000000000, 0, ""⟩ store0 "w3" 0
    ⟨(5 : ℚ), 0, 5, 5, 1000000000⟩ hb).1 h1 |>.1

/-- C6: with quota enabled, CheckQuota reads the period counter — an
absent counter counts as zero — and allows exactly when used < limit; a
counter at limit - 1 is allowed and a counter at or beyond the limit is
denied. -/
theorem checkQuota_spec (cfg : QuotaSettings) (store : Store)
    (identifier periodLabel : String) (he : cfg.enabled = true) :
    ((CheckQuota cfg store identifier periodLabel).1 = true ↔
      (readInt (store (getQuotaKey identifier periodLabel))).getD 0 < cfg.limit) ∧
    (store (getQuotaKey identifier periodLabel) = none →
      (getQuotaInfo cfg store identifier periodLabel).used = 0) ∧
    ((readInt (store (getQuotaKey identifier periodLabel))).getD 0 = cfg.limit - 1 →
      (CheckQuota cfg store identifier periodLabel).1 = true) ∧
    (cfg.limit ≤ (readInt (store (getQuotaKey identifier periodLabel))).getD 0 →
      (CheckQuota cfg store identifier periodLabel).1 = false) := by
  have hmain : (CheckQuota cfg store identifier periodLabel).1 = true ↔
      (readInt (store (getQuotaKey identifier periodLabel))).getD 0 < cfg.limit := by
    by_cases h : cfg.limit ≤ (readInt (store (getQuotaKey identifier periodLabel))).getD 0
    · have hc : CheckQuota cfg store identifier periodLabel
          = (false, some (getQuotaInfo cfg store identifier periodLabel)) := by
        simp [CheckQuota, getQuotaInfo, he, h]
      rw [hc]
      simp only [Bool.false_eq_true, false_iff]
      omega
    · have hc : CheckQuota cfg store identifier periodLabel
          = (true, some (getQuotaInfo cfg store identifier periodLabel)) := by
        simp [CheckQuota, getQuotaInfo, he, h]
      rw [hc]
      simp only [true_iff]
      omega
  refine ⟨hmain, ?_, ?_, ?_⟩
  · intro h0
    simp [getQuotaInfo, he, h0, readInt]
  · intro h
    exact hmain.mpr (by omega)
  · intro h
    rcases hb : (CheckQuota cfg store identifier periodLabel).1 with _ | _
    · rfl
    · exact absurd (by omega : ¬ (readInt (store (getQuotaKey identifier periodLabel))).getD 0
        < cfg.limit) (fun hn => hn (hmain.mp hb))

/-- C6 (witness): a concrete counter at limit - 1 = 9 of limit 10 is
allowed. -/
theorem checkQuota_spec_witness :
    (CheckQuota ⟨true, 10, "Daily", 0, ""⟩
      (Store.set store0 (getQuotaKey "w6" "D") (.int 9)) "w6" "D").1 = true := by
  refine (checkQuota_spec ⟨true, 10, "Daily", 0, ""⟩
    (Store.set store0 (getQuotaKey "w6" "D") (.int 9)) "w6" "D" rfl).2.2.1 ?_
  simp [Store.set_apply, store0, readInt]

/-- C7: when reading either bucket cell fails, the limiter synthesizes
a fresh full bucket (tokens = burst, last_refill = now) and, for a
validated configuration (parsed positive period, burst at least 1), the
decision is Allowed; no error is surfaced from the read path. -/
theorem allow_fail_open (cfg : RateLimitConfig) (store : Store)
    (identifier : String) (now p : Int) (hp : cfg.period = some p)
    (_hppos : 0 < p) (hb : 1 ≤ cfg.burst)
    (herr : readRat (store (getRateLimitKey identifier ++ ":tokens")) = none ∨
            readInt (store (getRateLimitKey identifier ++ ":last_refill")) = none) :
    getBucket cfg store (getRateLimitKey identifier) now
      = .ok ⟨(cfg.burst : ℚ), now, cfg.rate, cfg.burst, p⟩ ∧
    ∃ s', Allow cfg store identifier now = .ok (true, s') := by
  have hgb : getBucket cfg store (getRateLimitKey identifier) now
      = .ok ⟨(cfg.burst : ℚ), now, cfg.rate, cfg.burst, p⟩ := by
    rcases herr with h | h
    · simp [getBucket, h, createNewBucket, hp]
    · cases htk : readRat (store (getRateLimitKey identifier ++ ":tokens")) with
      | none => simp [getBucket, htk, createNewBucket, hp]
      | some tk => simp [getBucket, htk, h, createNewBucket, hp]
  have hfull : refillBucket ⟨(cfg.burst : ℚ), now, cfg.rate, cfg.burst, p⟩ now
      = ⟨(cfg.burst : ℚ), now, cfg.rate, cfg.burst, p⟩ := by
    simp [refillBucket, secondsQ]
  have hone : (1 : ℚ) ≤ (cfg.burst : ℚ) := by exact_mod_cast hb
  refine ⟨hgb, saveBucket store (getRateLimitKey identifier)
    ⟨(cfg.burst : ℚ) - 1, now, cfg.rate, cfg.burst, p⟩, ?_⟩
  simp [Allow, bind, Except.bind, hgb, hfull, hone]

/-- C7 (witness): at a concrete empty store the read fails, the
synthesized bucket is full, and the decision is Allowed. -/
theorem allow_fail_open_witness :
    getBucket ⟨true, 5, 5, some 1000000000, 0, ""⟩ store0 (getRateLimitKey "w7") 0
      = .ok ⟨(5 : ℚ), 0, 5, 5, 1000000000⟩ ∧
    ∃ s', Allow ⟨true, 5, 5, some 1000000000, 0, ""⟩ store0 "w7" 0 = .ok (true, s') := by
  have h := allow_fail_open ⟨true, 5, 5, some 1000000000, 0, ""⟩ store0 "w7" 0
    1000000000 rfl (by norm_num) (by norm_num) (Or.inl rfl)
  exact ⟨by exact_mod_cast h.1, h.2⟩

/-- The increment of a counter cell that is absent or holds an integer
always succeeds and adds exactly the amount (Redis INCRBY semantics). -/
theorem incrBy_int_or_absent (store : Store) (key : String) (a : Int)
    (hcell : store key = none ∨ ∃ m, store key = some (.int m)) :
    incrBy store key a = .ok ((readInt (store key)).getD 0 + a,
      Store.set store key (.int ((readInt (store key)).getD 0 + a))) := by
  rcases hcell with h | ⟨m, h⟩ <;> simp [incrBy, h, readInt]

/-- C10: with quota enabled, ConsumeQuota with a non-positive amount is
not a no-op: it coerces the amount to 1, increments the stored period
counter by exactly 1, and returns the updated info (used = old + 1);
AllowN by contrast returns Allowed for non-positive n without touching
the store. -/
theorem consumeQuota_coerce (cfg : QuotaSettings) (rlcfg : RateLimitConfig)
    (store : Store) (identifier periodLabel : String) (n now : Int)
    (he : cfg.enabled = true) (hn : n ≤ 0)
    (hcell : store (getQuotaKey identifier periodLabel) = none ∨
             ∃ m, store (getQuotaKey identifier periodLabel) = some (.int m)) :
    (∃ info s',
      ConsumeQuota cfg store identifier periodLabel n = .ok (some info, s') ∧
      s' (getQuotaKey identifier periodLabel)
        = some (.int ((readInt (store (getQuotaKey identifier periodLabel))).getD 0 + 1)) ∧
      info.used = (readInt (store (getQuotaKey identifier periodLabel))).getD 0 + 1 ∧
      (∀ k, k ≠ getQuotaKey identifier periodLabel → s' k = store k)) ∧
    AllowN rlcfg store identifier now n = .ok (true, store) := by
  constructor
  · refine ⟨getQuotaInfo cfg
      (Store.set store (getQuotaKey identifier periodLabel)
        (.int ((readInt (store (getQuotaKey identifier periodLabel))).getD 0 + 1)))
      identifier periodLabel,
      Store.set store (getQuotaKey identifier periodLabel)
        (.int ((readInt (store (getQuotaKey identifier periodLabel))).getD 0 + 1)),
      ?_, ?_, ?_, ?_⟩
    · simp [ConsumeQuota, he, hn, incrBy_int_or_absent store _ 1 hcell]
    · simp [Store.set_apply]
    · simp [getQuotaInfo, he, Store.set_apply, readInt]
    · intro k hk
      simp [Store.set_apply, hk]
  · simp [AllowN, hn]

/-- C10 (witness): amount 0 on an empty store increments the counter to
1 and reports used = 1, while AllowN 0 is a store-untouched Allowed. -/
theorem consumeQuota_coerce_witness :
    (∃ info s', ConsumeQuota ⟨true, 10, "Daily", 0, ""⟩ store0 "w10" "D" 0
        = .ok (some info, s') ∧ info.used = 1) ∧
    AllowN ⟨true, 5, 5, some 1000000000, 0, ""⟩ store0 "w10" 0 0
      = .ok (true, store0) := by
  obtain ⟨⟨info, s', hc, hcl, hused, hfr⟩, hA⟩ :=
    consumeQuota_coerce ⟨true, 10, "Daily", 0, ""⟩ ⟨true, 5, 5, some 1000000000, 0, ""⟩
      store0 "w10" "D" 0 0 rfl (by norm_num) (Or.inl rfl)
  refine ⟨⟨info, s', hc, ?_⟩, hA⟩
  simpa [store0, readInt] using hused

/-! Scenario for C2: both features enabled, empty store, matching
request; the pass-through path. -/

/-- Rule with rate limiting (5 per second, burst 5) and quota
(10 Daily) both enabled. -/
def cfgBoth : IdentifierConfig :=
  ⟨"Header", "X-API-Key", "sk-a", ⟨true, 5, 5, some 1000000000, 0, ""⟩,
    ⟨true, 10, "Daily", 0, ""⟩⟩

/-- The store after the C2 scenario limiter consume: the fresh bucket
of 5 minus the one consumed token. -/
def s1 : Store := saveBucket store0 (getRateLimitKey "sk-a") ⟨4, 0, 5, 5, 1000000000⟩

/-- The C2 scenario limiter step: fresh full bucket, one token taken. -/
theorem allow_lit :
    Allow ⟨true, 5, 5, some 1000000000, 0, ""⟩ store0 "sk-a" 0 = .ok (true, s1) := by
  simp only [Allow, getBucket, store0, readRat, createNewBucket,
    refillBucket, secondsQ, bind, Except.bind]
  norm_num [s1]

/-- The C2 scenario quota gate: no counter yet, 0 < 10, allowed. -/
theorem checkQuota_lit : CheckQuota ⟨true, 10, "Daily", 0, ""⟩ s1 "sk-a" "D"
    = (true, some ⟨10, 0, 10, "Daily"⟩) := by
  simp [CheckQuota, getQuotaInfo, getQuotaKey, s1, saveBucket, store0,
    Store.set_apply, readInt, getRateLimitKey]

/-- The C2 scenario consume step succeeds. -/
theorem consume_lit : ∃ info s2,
    ConsumeQuota ⟨true, 10, "Daily", 0, ""⟩ s1 "sk-a" "D" 1 = .ok (some info, s2) := by
  simp [ConsumeQuota, incrBy, getQuotaKey, s1, saveBucket, store0,
    Store.set_apply, getRateLimitKey]

/-- The C2 scenario decision record: a pass carrying both infos. -/
theorem checkIdentifier_lit : ∃ rli,
    checkIdentifier ⟨"Header", "X-API-Key", "sk-a", ⟨true, 5, 5, some 1000000000, 0, ""⟩,
        ⟨true, 10, "Daily", 0, ""⟩⟩ store0 "sk-a" 0 "D"
      = (⟨true, some rli, some ⟨10, 0, 10, "Daily"⟩, "sk-a", "Header",
          "Request allowed", 0, ""⟩, s1, [.limiterConsume, .quotaCheckGate]) := by
  obtain ⟨i, hi⟩ :=
    getLimitInfo_isOk ⟨true, 5, 5, some 1000000000, 0, ""⟩ s1 "sk-a" 0 1000000000 rfl
  refine ⟨i, ?_⟩
  simp [checkIdentifier, allow_lit, hi, checkQuota_lit]

/-- The C2 scenario event trace as the code emits it. -/
theorem serve_cfgBoth_events :
    (serveMatched cfgBoth store0 "sk-a" 0 "D").events
      = [.limiterConsume, .quotaCheckGate, .writeHeaders, .consumeQuota, .downstream] := by
  obtain ⟨rli, hci⟩ := checkIdentifier_lit
  obtain ⟨info, s2, hcq⟩ := consume_lit
  show (serveMatched ⟨"Header", "X-API-Key", "sk-a", ⟨true, 5, 5, some 1000000000, 0, ""⟩,
      ⟨true, 10, "Daily", 0, ""⟩⟩ store0 "sk-a" 0 "D").events = _
  simp [serveMatched, hci, hcq]

/-- The C2 scenario decision is a pass. -/
theorem serve_cfgBoth_allowed :
    (serveMatched cfgBoth store0 "sk-a" 0 "D").response.allowed = true := by
  obtain ⟨rli, hci⟩ := checkIdentifier_lit
  rw [serve_response]
  show (checkIdentifier ⟨"Header", "X-API-Key", "sk-a", ⟨true, 5, 5, some 1000000000, 0, ""⟩,
      ⟨true, 10, "Daily", 0, ""⟩⟩ store0 "sk-a" 0 "D").1.allowed = true
  rw [hci]

/-- C2 (counterexample): on a concrete passing request with both
features enabled, the middleware emits consume(1) BEFORE invoking the
downstream handler, not after the handler returns as the claim orders
the steps. -/
theorem serve_trace_cex :
    (serveMatched cfgBoth store0 "sk-a" 0 "D").events
      = [.limiterConsume, .quotaCheckGate, .writeHeaders, .consumeQuota, .downstream] ∧
    (serveMatched cfgBoth store0 "sk-a" 0 "D").events
      ≠ [.limiterConsume, .quotaCheckGate, .writeHeaders, .downstream, .consumeQuota] := by
  refine ⟨serve_cfgBoth_events, ?_⟩
  rw [serve_cfgBoth_events]
  decide

/-- C2 (amended): on every passing decision with rate limiting and
quota enabled (validated period), the per-request order is: limiter
consumes a token, quota check gate (no mutation), response headers,
consume(1), and only then the downstream handler. -/
theorem serve_trace_consume_before_downstream (cfg : IdentifierConfig) (store : Store)
    (identifier : String) (now : Int) (periodLabel : String) (p : Int)
    (hre : cfg.rateLimit.enabled = true) (hqe : cfg.quota.enabled = true)
    (hp : cfg.rateLimit.period = some p)
    (hallow : (serveMatched cfg store identifier now periodLabel).response.allowed = true) :
    (serveMatched cfg store identifier now periodLabel).events
      = [.limiterConsume, .quotaCheckGate, .writeHeaders, .consumeQuota, .downstream] := by
  obtain ⟨a, s', hA⟩ := allow_shape cfg.rateLimit store identifier now p hp
  cases a with
  | false =>
    exfalso
    rw [serve_response] at hallow
    simp [checkIdentifier, hre, hA] at hallow
  | true =>
    obtain ⟨i, hI⟩ := getLimitInfo_isOk cfg.rateLimit s' identifier now p hp
    rcases hq : CheckQuota cfg.quota s' identifier periodLabel with ⟨qa, qi⟩
    cases qa with
    | false =>
      exfalso
      rw [serve_response] at hallow
      simp [checkIdentifier, hre, hqe, hA, hI, hq] at hallow
    | true =>
      have hci : checkIdentifier cfg store identifier now periodLabel
          = (⟨true, some i, qi, identifier, cfg.type, "Request allowed", 0, ""⟩, s',
             [Event.limiterConsume, Event.quotaCheckGate]) := by
        simp [checkIdentifier, hre, hqe, hA, hI, hq]
      cases hcq : ConsumeQuota cfg.quota s' identifier periodLabel 1 with
      | error e => simp [serveMatched, hci, hqe, hcq]
      | ok pr => simp [serveMatched, hci, hqe, hcq]

/-- C2 (witness): the amended order at the concrete C2 scenario. -/
theorem serve_trace_consume_before_downstream_witness :
    (serveMatched cfgBoth store0 "sk-a" 0 "D").events
      = [.limiterConsume, .quotaCheckGate, .writeHeaders, .consumeQuota, .downstream] :=
  serve_trace_consume_before_downstream cfgBoth store0 "sk-a" 0 "D" 1000000000
    rfl rfl rfl serve_cfgBoth_allowed

/-! Scenario for C9: a rate-limited deny with a negative configured
deny status. -/

/-- Rule with rate limiting enabled and deny status configured as -1
(not positive, not zero); quota disabled. -/
def cfgC9 : IdentifierConfig :=
  ⟨"Header", "X-API-Key", "sk-a", ⟨true, 5, 5, some 1000000000, -1, ""⟩,
    ⟨false, 0, "", 0, ""⟩⟩

/-- A store holding an empty bucket for identifier u. -/
def storeEB : Store := fun k =>
  if k = getRateLimitKey "u" ++ ":tokens" then some (.rat 0)
  else if k = getRateLimitKey "u" ++ ":last_refill" then some (.int 0)
  else none

/-- The C9 scenario limiter step: the stored bucket is empty, denied. -/
theorem allow_denied_lit :
    Allow ⟨true, 5, 5, some 1000000000, -1, ""⟩ storeEB "u" 0 = .ok (false, storeEB) := by
  have hne := (tokens_key_ne_last_refill_key (getRateLimitKey "u")).symm
  simp only [Allow, getBucket, storeEB, readRat, readInt, bind, Except.bind,
    refillBucket, secondsQ, if_pos rfl, if_neg hne]
  norm_num

/-- The C9 scenario decision record: a rate-limit denial carrying the
configured code -1. -/
theorem checkIdentifier_C9_lit : ∃ rli,
    checkIdentifier ⟨"Header", "X-API-Key", "sk-a", ⟨true, 5, 5, some 1000000000, -1, ""⟩,
        ⟨false, 0, "", 0, ""⟩⟩ storeEB "u" 0 "L"
      = (⟨false, some rli, none, "u", "Header", "Rate limit exceeded", -1, ""⟩,
         storeEB, []) := by
  obtain ⟨i, hi⟩ :=
    getLimitInfo_isOk ⟨true, 5, 5, some 1000000000, -1, ""⟩ storeEB "u" 0 1000000000 rfl
  refine ⟨i, ?_⟩
  simp [checkIdentifier, allow_denied_lit, hi]

/-- The C9 scenario response facts: denied, rate-limit reason, and the
written status is the configured -1. -/
theorem serve_C9_facts :
    (serveMatched cfgC9 storeEB "u" 0 "L").response.allowed = false ∧
    (serveMatched cfgC9 storeEB "u" 0 "L").response.reason = "Rate limit exceeded" ∧
    (serveMatched cfgC9 storeEB "u" 0 "L").status = some (-1) := by
  obtain ⟨rli, hci⟩ := checkIdentifier_C9_lit
  refine ⟨?_, ?_, ?_⟩ <;>
  · show _ = _
    first
    | (rw [serve_response]
       show (checkIdentifier ⟨"Header", "X-API-Key", "sk-a",
           ⟨true, 5, 5, some 1000000000, -1, ""⟩, ⟨false, 0, "", 0, ""⟩⟩
           storeEB "u" 0 "L").1.allowed = false
       rw [hci])
    | (rw [serve_response]
       show (checkIdentifier ⟨"Header", "X-API-Key", "sk-a",
           ⟨true, 5, 5, some 1000000000, -1, ""⟩, ⟨false, 0, "", 0, ""⟩⟩
           storeEB "u" 0 "L").1.reason = "Rate limit exceeded"
       rw [hci])
    | (show (serveMatched ⟨"Header", "X-API-Key", "sk-a",
           ⟨true, 5, 5, some 1000000000, -1, ""⟩, ⟨false, 0, "", 0, ""⟩⟩
           storeEB "u" 0 "L").status = some (-1)
       simp [serveMatched, hci])

/-- C9 (counterexample): a rate-limit denial whose configured deny
status is -1 — not positive — is written verbatim as -1, not replaced
by the claimed fallback 429. -/
theorem deny_status_cex :
    (serveMatched cfgC9 storeEB "u" 0 "L").response.allowed = false ∧
    (serveMatched cfgC9 storeEB "u" 0 "L").response.reason = "Rate limit exceeded" ∧
    ¬ (0 < cfgC9.rateLimit.responseReachedLimitCode) ∧
    (serveMatched cfgC9 storeEB "u" 0 "L").status = some (-1) ∧
    (some (-1 : Int) ≠ some (429 : Int)) :=
  ⟨serve_C9_facts.1, serve_C9_facts.2.1, by decide, serve_C9_facts.2.2, by decide⟩

/-- C9 (amended): for every denied request the status is the
rule-configured deny status whenever that value is NON-ZERO; a zero
configured value falls back to 429 for a rate-limit denial and 403 for
a quota denial. -/
theorem deny_status_amended (cfg : IdentifierConfig) (store : Store)
    (identifier : String) (now : Int) (periodLabel : String) :
    ((serveMatched cfg store identifier now periodLabel).response.allowed = false →
      (serveMatched cfg store identifier now periodLabel).response.reason
        = "Rate limit exceeded" →
      (serveMatched cfg store identifier now periodLabel).status
        = some (if cfg.rateLimit.responseReachedLimitCode = 0 then 429
                else cfg.rateLimit.responseReachedLimitCode)) ∧
    ((serveMatched cfg store identifier now periodLabel).response.allowed = false →
      (serveMatched cfg store identifier now periodLabel).response.reason
        = "Quota exceeded" →
      (serveMatched cfg store identifier now periodLabel).status
        = some (if cfg.quota.responseReachedLimitCode = 0 then 403
                else cfg.quota.responseReachedLimitCode)) := by
  have hr := serve_response cfg store identifier now periodLabel
  rcases checkIdentifier_shape cfg store identifier now periodLabel with
    ⟨h1, h2, h3⟩ | ⟨h1, h2, h3⟩ | ⟨h1, h2, h3⟩
  · constructor <;>
    · intro hd _
      rw [hr, h1] at hd
      exact absurd hd (by decide)
  · constructor
    · intro hd hreason
      have hst := serve_status_of_denied cfg store identifier now periodLabel h1
      rw [hst, h2, h3]
      simp
    · intro hd hreason
      rw [hr, h2] at hreason
      exact absurd hreason (by decide)
  · constructor
    · intro hd hreason
      rw [hr, h2] at hreason
      exact absurd hreason (by decide)
    · intro hd hreason
      have hst := serve_status_of_denied cfg store identifier now periodLabel h1
      rw [hst, h2, h3]
      simp

/-- C9 (witness): the amended rule at the concrete C9 scenario: the
non-zero configured -1 is written. -/
theorem deny_status_amended_witness :
    (serveMatched cfgC9 storeEB "u" 0 "L").status = some (-1) := by
  have h := (deny_status_amended cfgC9 storeEB "u" 0 "L").1
    serve_C9_facts.1 serve_C9_facts.2.1
  simpa [cfgC9] using h

end TraefikQuota
